import Mathlib

/-!
Verification of the EquilateralAgents GitHub Action result-aggregation and
multi-channel reporting pipeline (src/index.js, src/agents.js).

The JavaScript functions are shallowly embedded: optional fields become
`Option` values, and JavaScript truthiness tests (`x || d`, `if (x)`) are
modelled faithfully, so the empty string and the number 0 count as absent.
-/

namespace EquilateralAction

/-- A single normalized finding, as consumed by the renderers.
`severity` is an open string (the code compares it against the literals
critical / warning / info); `file`, `line` and `title` may be absent. -/
structure Issue where
  severity : String
  file : Option String
  line : Option Nat
  message : String
  title : Option String
deriving Repr, DecidableEq

/-- The payload part of one task outcome: both fields optional. -/
structure TaskResult where
  summary : Option String
  issues : Option (List Issue)
deriving Repr, DecidableEq

/-- One per-task outcome, tagged with the originating agent id. -/
structure TaskOutcome where
  agentId : String
  result : TaskResult
deriving Repr, DecidableEq

/-- The top-level workflow result consumed by the normalizer; the
`results` field may be absent (`result.results || []` in the source). -/
structure WorkflowResult where
  results : Option (List TaskOutcome)
deriving Repr, DecidableEq

/-- JavaScript `x || dflt` on an optional string: the empty string is falsy. -/
def orElseStr (dflt : String) : Option String → String
  | none => dflt
  | some s => if s = "" then dflt else s

/-- JavaScript `issue.line || 1`: absent or zero becomes 1. -/
def lineOr1 : Option Nat → Nat
  | none => 1
  | some n => if n = 0 then 1 else n

/-- JavaScript template interpolation of a possibly-undefined string. -/
def jsStr : Option String → String
  | none => "undefined"
  | some s => s

/-- JavaScript line rendering in text contexts: absent or zero becomes a question mark. -/
def lineOrQ : Option Nat → String
  | none => "?"
  | some n => if n = 0 then "?" else toString n

/-- `generateSummary` from src/index.js: header counting all tasks, then one
appended fragment per task whose result carries a truthy summary. -/
def generateSummary (result : WorkflowResult) : String :=
  let tasks := result.results.getD []
  tasks.foldl
    (fun summary task =>
      match task.result.summary with
      | some s => if s = "" then summary else summary ++ "\n" ++ task.agentId ++ ": " ++ s
      | none => summary)
    ("Analyzed " ++ toString tasks.length ++ " workflow tasks\n")

/-- `extractIssues` from src/index.js: concatenate each present `issues`
array in task order (a present empty array contributes nothing). -/
def extractIssues (result : WorkflowResult) : List Issue :=
  let tasks := result.results.getD []
  tasks.foldl
    (fun issues task =>
      match task.result.issues with
      | some is => issues ++ is
      | none => issues)
    []

/-- One inline annotation record, as assembled in `run` (src/index.js).
The source field `annotation_level` is called `annotLevel` here. -/
structure Annot where
  path : String
  start_line : Nat
  end_line : Nat
  annotLevel : String
  message : String
  title : String
deriving Repr, DecidableEq

/-- The annotation built for one issue in `run` (src/index.js lines 92-108):
`level` is error for critical severity, and `annotation_level` is failure
exactly when `level` is error. -/
def makeAnnot (issue : Issue) : Annot :=
  let level := if issue.severity = "critical" then "error" else "warning"
  { path := orElseStr "unknown" issue.file
    start_line := lineOr1 issue.line
    end_line := lineOr1 issue.line
    annotLevel := if level = "error" then "failure" else "warning"
    message := issue.message
    title := orElseStr "Issue found" issue.title }

/-- The annotation batch: one record per issue, in issue order. -/
def annotsOf (issues : List Issue) : List Annot :=
  issues.map makeAnnot

/-- The severity partition used by the comment renderer
(src/index.js lines 193-195): three filters by exact string equality. -/
structure Classified where
  critical : List Issue
  warning : List Issue
  info : List Issue
deriving Repr, DecidableEq

/-- `classify`: the three severity filters of `createPullRequestComment`. -/
def classify (issues : List Issue) : Classified :=
  { critical := issues.filter (fun i => i.severity == "critical")
    warning := issues.filter (fun i => i.severity == "warning")
    info := issues.filter (fun i => i.severity == "info") }

/-- One rendered issue line of the PR comment. -/
def issueLine (issue : Issue) : String :=
  "- **" ++ jsStr issue.file ++ ":" ++ lineOrQ issue.line ++ "** - " ++ issue.message ++ "\n"

/-- `createPullRequestComment` body construction from src/index.js
(lines 187-230), with the imperative `body += ...` loops embedded as folds. -/
def createPullRequestComment (summary : String) (issues : List Issue) (aiEnabled : Bool) : String :=
  let body := "## 🤖 EquilateralAgents Analysis\n\n"
  let body := body ++ "### Summary\n" ++ summary ++ "\n"
  let body :=
    if issues.length > 0 then
      let body := body ++ "\n### Issues Found (" ++ toString issues.length ++ ")\n\n"
      let critical := issues.filter (fun i => i.severity == "critical")
      let warnings := issues.filter (fun i => i.severity == "warning")
      let info := issues.filter (fun i => i.severity == "info")
      let body :=
        if critical.length > 0 then
          (critical.foldl (fun b issue => b ++ issueLine issue)
            (body ++ "#### 🔴 Critical (" ++ toString critical.length ++ ")\n")) ++ "\n"
        else body
      let body :=
        if warnings.length > 0 then
          (warnings.foldl (fun b issue => b ++ issueLine issue)
            (body ++ "#### 🟡 Warnings (" ++ toString warnings.length ++ ")\n")) ++ "\n"
        else body
      let body :=
        if info.length > 0 then
          (info.foldl (fun b issue => b ++ issueLine issue)
            (body ++ "#### ℹ️ Info (" ++ toString info.length ++ ")\n")) ++ "\n"
        else body
      body
    else
      body ++ "\n✅ No issues found!\n"
  let body := body ++ "\n---\n"
  let body := body ++ "*Powered by [EquilateralAgents](https://github.com/marketplace/equilateral-agents)"
  let body := if aiEnabled then body ++ " • AI-Enhanced Analysis Enabled" else body
  body ++ "*"

/-- The check-run output block (`output` object of `checks.create`). -/
structure CheckOutput where
  title : String
  summary : String
  text : String
deriving Repr, DecidableEq

/-- The check-run payload fields computed by `createCheckRunReport`. -/
structure CheckRun where
  name : String
  status : String
  conclusion : String
  output : CheckOutput
deriving Repr, DecidableEq

/-- `createCheckRunReport` from src/index.js (lines 245-269); `resultText`
stands for the serialized full result passed as `output.text`. -/
def createCheckRunReport (summary : String) (resultText : String) (issues : List Issue) : CheckRun :=
  let criticalCount := (issues.filter (fun i => i.severity == "critical")).length
  let conclusion := if criticalCount > 0 then "failure" else "success"
  let title :=
    if criticalCount > 0 then "Found " ++ toString criticalCount ++ " critical issues"
    else "All checks passed"
  { name := "EquilateralAgents"
    status := "completed"
    conclusion := conclusion
    output := { title := title, summary := summary, text := resultText } }

/-- One task descriptor of a workflow definition. -/
structure TaskDescriptor where
  agentId : String
  taskType : String
deriving Repr, DecidableEq

/-- A workflow definition: an ordered task list. -/
structure WorkflowDefinition where
  tasks : List TaskDescriptor
deriving Repr, DecidableEq

/-- `getWorkflowDefinition` installed by `registerGitHubAgents`
(src/agents.js lines 55-85): static four-entry table, unknown keys fall
back to the empty task list. -/
def getWorkflowDefinition (workflowType : String) : WorkflowDefinition :=
  if workflowType = "code-review" then
    { tasks := [⟨"github-code-analyzer", "analyze"⟩, ⟨"github-security-scanner", "scan"⟩] }
  else if workflowType = "full-analysis" then
    { tasks := [⟨"github-code-analyzer", "analyze"⟩, ⟨"github-security-scanner", "scan"⟩,
                ⟨"github-test-runner", "test"⟩] }
  else if workflowType = "pre-deploy" then
    { tasks := [⟨"github-test-runner", "test"⟩, ⟨"github-security-scanner", "scan"⟩,
                ⟨"github-deployment-validator", "validate"⟩] }
  else if workflowType = "security-scan" then
    { tasks := [⟨"github-security-scanner", "security_scan"⟩] }
  else
    { tasks := [] }

/-! ### Structured re-expressions used to state the claims -/

/-- Concatenation of the strings produced from each list element, in order. -/
def joinMap (f : α → String) : List α → String
  | [] => ""
  | a :: as => f a ++ joinMap f as

/-- The summary fragment contributed by one task outcome: present exactly
when the outcome carries a non-empty summary. -/
def summaryContribution (t : TaskOutcome) : Option String :=
  match t.result.summary with
  | some s => if s = "" then none else some ("\n" ++ t.agentId ++ ": " ++ s)
  | none => none

/-- One severity subsection of the comment: the fixed label, the group
size, then one rendered line per issue of the group; empty for an empty
group. `label` is the literal section heading up to the open parenthesis. -/
def severityBlock (label : String) (group : List Issue) : String :=
  if group.length > 0 then
    label ++ toString group.length ++ ")\n" ++ joinMap issueLine group ++ "\n"
  else ""

/-- `makeAnnot` with the `level` indirection collapsed and the JavaScript
defaulting spelled out, for comparison with the annotation fields the
specification describes. -/
def annotSpec (issue : Issue) : Annot :=
  { path :=
      match issue.file with
      | none => "unknown"
      | some s => if s = "" then "unknown" else s
    start_line :=
      match issue.line with
      | none => 1
      | some n => if n = 0 then 1 else n
    end_line :=
      match issue.line with
      | none => 1
      | some n => if n = 0 then 1 else n
    annotLevel := if issue.severity = "critical" then "failure" else "warning"
    message := issue.message
    title :=
      match issue.title with
      | none => "Issue found"
      | some s => if s = "" then "Issue found" else s }

/-! ### Concrete data used by witnesses and counterexamples -/

/-- A critical issue with all location fields present. -/
def critIssue : Issue := ⟨"critical", some "a.js", some 10, "SQL injection", none⟩

/-- A warning issue with all location fields present. -/
def warnIssue : Issue := ⟨"warning", some "b.js", some 5, "unused var", none⟩

/-- An issue whose severity is not one of the three recognized values. -/
def bogusIssue : Issue := ⟨"bogus", some "c.js", some 3, "odd finding", none⟩

/-- A critical issue whose file, line and title are present but falsy in
JavaScript: empty strings and the number zero. -/
def falsyIssue : Issue := ⟨"critical", some "", some 0, "m", some ""⟩

/-- A run with a single task whose summary is the empty string. -/
def emptySummaryRun : WorkflowResult := ⟨some [⟨"a", ⟨some "", none⟩⟩]⟩

/-- A successful task outcome contributing one warning. -/
def okTaskA : TaskOutcome := ⟨"a", ⟨some "ok", some [warnIssue]⟩⟩

/-- A successful task outcome contributing one critical issue. -/
def okTaskB : TaskOutcome := ⟨"b", ⟨some "fine", some [critIssue]⟩⟩

/-- A failed task outcome: its result carries neither summary nor issues. -/
def failedTask : TaskOutcome := ⟨"bad", ⟨none, none⟩⟩

/-! ### Helper lemmas -/

theorem foldl_append_str (f : α → String) (L : List α) (start : String) :
    L.foldl (fun b a => b ++ f a) start = start ++ joinMap f L := by
  induction L generalizing start with
  | nil => simp [joinMap]
  | cons a as ih =>
      simp only [List.foldl_cons, joinMap, ih, String.append_assoc]

theorem joinMap_mem_split (f : α → String) {a : α} {L : List α} (h : a ∈ L) :
    ∃ s t, joinMap f L = s ++ f a ++ t := by
  induction L with
  | nil => cases h
  | cons b bs ih =>
      rcases List.mem_cons.mp h with hb | hbs
      · exact ⟨"", joinMap f bs, by simp [joinMap, hb]⟩
      · rcases ih hbs with ⟨s, t, hst⟩
        exact ⟨f b ++ s, t, by simp [joinMap, hst, String.append_assoc]⟩

theorem foldl_optAppend_eq (L : List TaskOutcome) (acc : List Issue) :
    L.foldl
      (fun issues task =>
        match task.result.issues with
        | some is => issues ++ is
        | none => issues)
      acc = acc ++ (L.map (fun t => t.result.issues.getD [])).flatten := by
  induction L generalizing acc with
  | nil => simp
  | cons t ts ih =>
      cases h : t.result.issues with
      | none => simp [List.foldl_cons, h, ih]
      | some is => simp [List.foldl_cons, h, ih]

theorem foldl_summary_eq (L : List TaskOutcome) (start : String) :
    L.foldl
      (fun summary task =>
        match task.result.summary with
        | some s => if s = "" then summary else summary ++ "\n" ++ task.agentId ++ ": " ++ s
        | none => summary)
      start = start ++ joinMap id (L.filterMap summaryContribution) := by
  induction L generalizing start with
  | nil => simp [joinMap]
  | cons t ts ih =>
      cases h : t.result.summary with
      | none =>
          simp [List.foldl_cons, h, summaryContribution, ih, List.filterMap_cons]
      | some s =>
          by_cases hs : s = ""
          · simp [List.foldl_cons, h, hs, summaryContribution, ih, List.filterMap_cons]
          · simp only [List.foldl_cons, h, if_neg hs]
            rw [ih]
            simp [summaryContribution, h, hs, List.filterMap_cons, joinMap,
              String.append_assoc]

/-- `createPullRequestComment` re-expressed as header, summary, severity
sections (in fixed order, empty groups omitted) or the no-issues line, and
the attribution footer with its optional AI note. -/
theorem comment_structured (summary : String) (issues : List Issue) (ai : Bool) :
    createPullRequestComment summary issues ai =
      "## 🤖 EquilateralAgents Analysis\n\n" ++ "### Summary\n" ++ summary ++ "\n" ++
      (if issues.length > 0 then
        "\n### Issues Found (" ++ toString issues.length ++ ")\n\n" ++
        severityBlock "#### 🔴 Critical (" (classify issues).critical ++
        severityBlock "#### 🟡 Warnings (" (classify issues).warning ++
        severityBlock "#### ℹ️ Info (" (classify issues).info
      else "\n✅ No issues found!\n") ++
      ("\n---\n" ++ "*Powered by [EquilateralAgents](https://github.com/marketplace/equilateral-agents)" ++
        (if ai then " • AI-Enhanced Analysis Enabled" else "") ++ "*") := by
  simp only [createPullRequestComment, classify, severityBlock, foldl_append_str]
  split_ifs <;>
    simp only [String.append_assoc, String.append_empty, String.empty_append]

theorem joinMap_append (f : α → String) (L M : List α) :
    joinMap f (L ++ M) = joinMap f L ++ joinMap f M := by
  induction L with
  | nil => simp [joinMap]
  | cons a as ih => simp [joinMap, ih, String.append_assoc]

/-! ### Claim C1: classification by severity -/

/-- C1 counterexample: an issue with the unrecognized severity `bogus` is
placed in none of the three groups, so the group sizes do not sum to the
length of the list. -/
theorem classify_partition_cex :
    (classify [bogusIssue]).critical.length + (classify [bogusIssue]).warning.length
        + (classify [bogusIssue]).info.length
      ≠ [bogusIssue].length := by
  decide

/-- C1 (amended): the three groups are filters by exact severity, so their
sizes sum to the number of issues whose severity is one of the three
recognized values, and an issue with any other severity is in none of the
groups (it is dropped, not placed in `info`). -/
theorem classify_partition_amended (L : List Issue) :
    (classify L).critical.length + (classify L).warning.length + (classify L).info.length
      = (L.filter (fun i =>
          i.severity == "critical" || i.severity == "warning" || i.severity == "info")).length
    ∧ ∀ i, i ∈ L → i.severity ≠ "critical" → i.severity ≠ "warning" → i.severity ≠ "info" →
        i ∉ (classify L).critical ∧ i ∉ (classify L).warning ∧ i ∉ (classify L).info := by
  constructor
  · induction L with
    | nil => simp [classify]
    | cons a as ih =>
        simp only [classify] at ih ⊢
        by_cases h1 : a.severity = "critical" <;> by_cases h2 : a.severity = "warning" <;>
          by_cases h3 : a.severity = "info" <;>
          simp_all [List.filter_cons] <;> omega
  · intro i hi h1 h2 h3
    refine ⟨?_, ?_, ?_⟩ <;> simp [classify, List.mem_filter, h1, h2, h3]

/-- C1 witness: the amended theorem applied to a two-issue list containing
the unrecognized-severity issue. -/
theorem classify_partition_amended_witness :
    bogusIssue ∉ (classify [bogusIssue, critIssue]).critical
    ∧ bogusIssue ∉ (classify [bogusIssue, critIssue]).warning
    ∧ bogusIssue ∉ (classify [bogusIssue, critIssue]).info :=
  (classify_partition_amended [bogusIssue, critIssue]).2 bogusIssue
    (by decide) (by decide) (by decide) (by decide)

/-! ### Claim C3: check-run conclusion and title -/

/-- C3: the check-run conclusion is failure exactly when the critical count
is positive and success exactly when it is zero; the title is determined by
the critical count; two issue lists with the same critical count always get
the same conclusion and title, so warnings and info never affect them. -/
theorem checkRun_conclusion_title (summary resultText : String) (issues : List Issue) :
    ((createCheckRunReport summary resultText issues).conclusion = "failure"
      ↔ 0 < (issues.filter (fun i => i.severity == "critical")).length)
    ∧ ((createCheckRunReport summary resultText issues).conclusion = "success"
      ↔ (issues.filter (fun i => i.severity == "critical")).length = 0)
    ∧ ((createCheckRunReport summary resultText issues).output.title =
        if 0 < (issues.filter (fun i => i.severity == "critical")).length then
          "Found " ++ toString (issues.filter (fun i => i.severity == "critical")).length
            ++ " critical issues"
        else "All checks passed")
    ∧ ∀ issues2 : List Issue,
        (issues2.filter (fun i => i.severity == "critical")).length
          = (issues.filter (fun i => i.severity == "critical")).length →
        (createCheckRunReport summary resultText issues2).conclusion
          = (createCheckRunReport summary resultText issues).conclusion
        ∧ (createCheckRunReport summary resultText issues2).output.title
          = (createCheckRunReport summary resultText issues).output.title := by
  refine ⟨?_, ?_, ?_, ?_⟩
  · by_cases h : 0 < (issues.filter (fun i => i.severity == "critical")).length <;>
      simp [createCheckRunReport, h]
  · by_cases h : 0 < (issues.filter (fun i => i.severity == "critical")).length
    · simp only [createCheckRunReport, if_pos h]
      constructor
      · intro hc; exact absurd hc (by decide)
      · intro h0; omega
    · simp only [createCheckRunReport, if_neg h]
      constructor
      · intro _; omega
      · intro _; trivial
  · by_cases h : 0 < (issues.filter (fun i => i.severity == "critical")).length <;>
      simp [createCheckRunReport, h]
  · intro issues2 h2
    unfold createCheckRunReport
    rw [h2]
    exact ⟨rfl, rfl⟩

/-- C3 witness: adding a warning to a one-critical-issue list changes
neither the conclusion nor the title. -/
theorem checkRun_conclusion_title_witness :
    (createCheckRunReport "s" "t" [critIssue, warnIssue]).conclusion
      = (createCheckRunReport "s" "t" [critIssue]).conclusion
    ∧ (createCheckRunReport "s" "t" [critIssue, warnIssue]).output.title
      = (createCheckRunReport "s" "t" [critIssue]).output.title :=
  (checkRun_conclusion_title "s" "t" [critIssue]).2.2.2 [critIssue, warnIssue] (by decide)

/-! ### Claim C4: workflow registry -/

/-- C4: the registry resolves the four built-in keys to exactly the ordered
task lists of the source, the dedicated security-scan workflow uses a task
type distinct from the scan step of the other workflows, and every other
key resolves to the empty task list. -/
theorem workflowRegistry_resolution :
    getWorkflowDefinition "code-review"
      = ⟨[⟨"github-code-analyzer", "analyze"⟩, ⟨"github-security-scanner", "scan"⟩]⟩
    ∧ getWorkflowDefinition "full-analysis"
      = ⟨[⟨"github-code-analyzer", "analyze"⟩, ⟨"github-security-scanner", "scan"⟩,
          ⟨"github-test-runner", "test"⟩]⟩
    ∧ getWorkflowDefinition "pre-deploy"
      = ⟨[⟨"github-test-runner", "test"⟩, ⟨"github-security-scanner", "scan"⟩,
          ⟨"github-deployment-validator", "validate"⟩]⟩
    ∧ getWorkflowDefinition "security-scan"
      = ⟨[⟨"github-security-scanner", "security_scan"⟩]⟩
    ∧ ("security_scan" : String) ≠ "scan"
    ∧ ∀ w : String, w ≠ "code-review" → w ≠ "full-analysis" → w ≠ "pre-deploy" →
        w ≠ "security-scan" → getWorkflowDefinition w = ⟨[]⟩ := by
  refine ⟨by decide, by decide, by decide, by decide, by decide, ?_⟩
  intro w h1 h2 h3 h4
  simp [getWorkflowDefinition, h1, h2, h3, h4]

/-- C4 witness: an unknown workflow type resolves to the empty task list. -/
theorem workflowRegistry_resolution_witness :
    getWorkflowDefinition "unknown-type" = ⟨[]⟩ :=
  workflowRegistry_resolution.2.2.2.2.2 "unknown-type"
    (by decide) (by decide) (by decide) (by decide)

/-! ### Claim C2: cross-channel consistency -/

/-- C2: a critical issue in the aggregated list makes the check-run
conclusion failure, its rendered line occurs inside the pull-request
comment body (within the critical section), and its annotation record has
the failing level. -/
theorem crossChannelConsistency (summary resultText : String) (ai : Bool)
    (issues : List Issue) (issue : Issue) (hmem : issue ∈ issues)
    (hcrit : issue.severity = "critical") :
    (createCheckRunReport summary resultText issues).conclusion = "failure"
    ∧ (∃ s t, createPullRequestComment summary issues ai = s ++ issueLine issue ++ t)
    ∧ (makeAnnot issue).annotLevel = "failure" := by
  have hmemf : issue ∈ (classify issues).critical := by
    simp [classify, List.mem_filter, hmem, hcrit]
  have hclen : 0 < (classify issues).critical.length :=
    List.length_pos.mpr (List.ne_nil_of_mem hmemf)
  have hclen' : 0 < (issues.filter (fun i => i.severity == "critical")).length := by
    simpa [classify] using hclen
  have hilen : 0 < issues.length := List.length_pos.mpr (List.ne_nil_of_mem hmem)
  obtain ⟨s, t, hst⟩ := joinMap_mem_split issueLine hmemf
  refine ⟨?_, ?_, ?_⟩
  · simp [createCheckRunReport, hclen']
  · refine ⟨"## 🤖 EquilateralAgents Analysis\n\n" ++ "### Summary\n" ++ summary ++ "\n"
      ++ ("\n### Issues Found (" ++ toString issues.length ++ ")\n\n"
        ++ ("#### 🔴 Critical (" ++ toString (classify issues).critical.length ++ ")\n" ++ s)),
      t ++ "\n"
        ++ severityBlock "#### 🟡 Warnings (" (classify issues).warning
        ++ severityBlock "#### ℹ️ Info (" (classify issues).info
        ++ ("\n---\n"
          ++ "*Powered by [EquilateralAgents](https://github.com/marketplace/equilateral-agents)"
          ++ (if ai then " • AI-Enhanced Analysis Enabled" else "") ++ "*"), ?_⟩
    rw [comment_structured, if_pos hilen]
    have hb : severityBlock "#### 🔴 Critical (" (classify issues).critical
        = "#### 🔴 Critical (" ++ toString (classify issues).critical.length ++ ")\n"
          ++ (s ++ issueLine issue ++ t) ++ "\n" := by
      rw [severityBlock, if_pos hclen, hst]
    rw [hb]
    simp only [String.append_assoc]
  · simp [makeAnnot, hcrit]

/-- C2 witness: the theorem applied to a one-critical-issue list. -/
theorem crossChannelConsistency_witness :
    (createCheckRunReport "sum" "txt" [critIssue]).conclusion = "failure"
    ∧ (∃ s t, createPullRequestComment "sum" [critIssue] false = s ++ issueLine critIssue ++ t)
    ∧ (makeAnnot critIssue).annotLevel = "failure" :=
  crossChannelConsistency "sum" "txt" false [critIssue] critIssue (by decide) (by decide)

/-! ### Claim C5: summary text -/

/-- C5 counterexample: an outcome whose summary is the empty string carries
a summary but contributes no line, because the source tests JavaScript
truthiness; the rendered document contains no agent line at all. -/
theorem summaryLines_cex :
    generateSummary emptySummaryRun = "Analyzed 1 workflow tasks\n"
    ∧ ¬ ("a: ").data <:+: (generateSummary emptySummaryRun).data := by
  exact ⟨by decide, by decide⟩

/-- C5 (amended): the summary is exactly the fixed header counting all
tasks followed, in outcome order, by one fragment per outcome that carries
a non-empty summary; outcomes with an absent or empty summary, and absent
issues fields, contribute nothing. -/
theorem summaryLines_amended (r : WorkflowResult) :
    generateSummary r =
      "Analyzed " ++ toString (r.results.getD []).length ++ " workflow tasks\n"
        ++ joinMap id ((r.results.getD []).filterMap summaryContribution) := by
  unfold generateSummary
  exact foldl_summary_eq _ _

/-! ### Claim C6: issue order preservation -/

/-- C6: the aggregated issue list is the concatenation of the per-task
issue lists in task-execution order, stable and not re-sorted. -/
theorem issueOrder_preserved (r : WorkflowResult) :
    extractIssues r
      = ((r.results.getD []).map (fun t => t.result.issues.getD [])).flatten := by
  unfold extractIssues
  simpa using foldl_optAppend_eq (r.results.getD []) []

/-! ### Claim C7: comment renderer structure -/

/-- C7: the comment body is the fixed header, the summary text, then either
the issue sections (one block per non-empty severity group, in the fixed
order critical, warning, info, each listing one line per issue in group
order) or the fixed no-issues line, and always the attribution footer,
which notes AI enhancement exactly when the caller enabled AI. -/
theorem commentRenderer_structure (summary : String) (issues : List Issue) (ai : Bool) :
    createPullRequestComment summary issues ai =
      "## 🤖 EquilateralAgents Analysis\n\n" ++ "### Summary\n" ++ summary ++ "\n" ++
      (if issues.length > 0 then
        "\n### Issues Found (" ++ toString issues.length ++ ")\n\n" ++
        severityBlock "#### 🔴 Critical (" (classify issues).critical ++
        severityBlock "#### 🟡 Warnings (" (classify issues).warning ++
        severityBlock "#### ℹ️ Info (" (classify issues).info
      else "\n✅ No issues found!\n") ++
      ("\n---\n" ++ "*Powered by [EquilateralAgents](https://github.com/marketplace/equilateral-agents)" ++
        (if ai then " • AI-Enhanced Analysis Enabled" else "") ++ "*") :=
  comment_structured summary issues ai

/-! ### Claim C8: annotation renderer -/

/-- C8 counterexample: an issue whose file and title are present but empty
is not annotated with its own file and title; the JavaScript defaulting
also replaces present-but-empty values. -/
theorem annot_fields_cex :
    falsyIssue.file = some "" ∧ (makeAnnot falsyIssue).path = "unknown"
    ∧ falsyIssue.title = some "" ∧ (makeAnnot falsyIssue).title = "Issue found" := by
  decide

/-- C8 (amended): exactly one annotation record per issue, in order, whose
path is the file defaulting to `unknown` when absent or empty, whose start
and end line are the line defaulting to 1 when absent or zero, whose level
is failure for critical severity and warning otherwise, and whose title
defaults to `Issue found` when absent or empty. -/
theorem annots_one_per_issue (issues : List Issue) :
    (annotsOf issues).length = issues.length ∧ annotsOf issues = issues.map annotSpec := by
  have hfun : ∀ i : Issue, makeAnnot i = annotSpec i := by
    intro i
    unfold makeAnnot annotSpec orElseStr lineOr1
    by_cases h : i.severity = "critical" <;> simp [h]
  constructor
  · simp [annotsOf]
  · unfold annotsOf
    exact List.map_congr_left fun i _ => hfun i

/-! ### Claim C9: a failed task does not abort aggregation -/

/-- C9: an outcome carrying neither summary nor issues contributes no
summary fragment and no issues, while the header still counts it and the
contributions of the surrounding tasks are kept unchanged. -/
theorem failedTask_isolated (pre post : List TaskOutcome) (f : TaskOutcome)
    (hs : f.result.summary = none) (hi : f.result.issues = none) :
    generateSummary ⟨some (pre ++ f :: post)⟩
      = "Analyzed " ++ toString (pre.length + post.length + 1) ++ " workflow tasks\n"
        ++ joinMap id (pre.filterMap summaryContribution)
        ++ joinMap id (post.filterMap summaryContribution)
    ∧ extractIssues ⟨some (pre ++ f :: post)⟩
      = extractIssues ⟨some pre⟩ ++ extractIssues ⟨some post⟩ := by
  have hlen : (pre ++ f :: post).length = pre.length + post.length + 1 := by
    simp; omega
  constructor
  · unfold generateSummary
    rw [foldl_summary_eq]
    simp only [Option.getD_some, hlen]
    rw [List.filterMap_append, List.filterMap_cons]
    simp only [summaryContribution, hs, joinMap_append, String.append_assoc]
  · unfold extractIssues
    simp only [Option.getD_some, foldl_optAppend_eq]
    rw [List.map_append, List.map_cons, List.flatten_append, List.flatten_cons]
    simp [hi]

/-- C9 witness: the theorem applied to one successful task on each side of
the failed one. -/
theorem failedTask_isolated_witness :
    generateSummary ⟨some ([okTaskA] ++ failedTask :: [okTaskB])⟩
      = "Analyzed " ++ toString ([okTaskA].length + [okTaskB].length + 1) ++ " workflow tasks\n"
        ++ joinMap id ([okTaskA].filterMap summaryContribution)
        ++ joinMap id ([okTaskB].filterMap summaryContribution)
    ∧ extractIssues ⟨some ([okTaskA] ++ failedTask :: [okTaskB])⟩
      = extractIssues ⟨some [okTaskA]⟩ ++ extractIssues ⟨some [okTaskB]⟩ :=
  failedTask_isolated [okTaskA] [okTaskB] failedTask rfl rfl

/-! ### Claim C10: absent results field -/

/-- C10: when the `results` field of the workflow result is absent, summary
generation reports zero tasks and issue extraction returns the empty list. -/
theorem missingResults_zeroTasks :
    generateSummary ⟨none⟩ = "Analyzed 0 workflow tasks\n" ∧ extractIssues ⟨none⟩ = [] := by
  exact ⟨by decide, by decide⟩

end EquilateralAction
